import Mathlib

/-!
Verification of the ColdCopy usage-metering, entitlement and resilient-storage
core against its natural-language specification.

The definitions below are a shallow embedding of the TypeScript source:

* `shared/schema.ts` — the `users` row shape and the compiled-in plan
  catalog `SUBSCRIPTION_PLANS` (keys `trial`, `pro`, `agency`).
* `server/storage.ts` (several variants in the repository) — `MemStorage`
  with `createUser`, `updateUserSubscription`, `incrementMessageUsage`,
  `resetMonthlyUsage`, `canUserGenerateMessage`, and the `HybridStorage`
  facade that fails over from the database backend to the in-memory one.
* `server/routes.ts` (several variants) — the generate-message flows
  (authenticated and anonymous) and the Stripe webhook cases
  `invoice.payment_succeeded` and `customer.subscription.deleted`.

JavaScript `Map` state is modelled as a function `Nat → Option User`,
asynchronous methods that can throw are modelled with `Option`, and the
single-process interleaving of the two-step quota consumption
(check, then increment, with an await point between them) is modelled by an
explicit schedule over per-call step states.
-/

namespace ColdCopy

/-- A row of the `users` table (`shared/schema.ts`).  Timestamps are
modelled as natural numbers.  Nullable columns are `Option`. -/
structure User where
  id : Nat
  username : String
  password : String
  email : Option String
  stripeCustomerId : Option String
  stripeSubscriptionId : Option String
  plan : String
  messagesUsedThisMonth : Nat
  subscriptionStatus : Option String
  currentPeriodEnd : Option Nat
  createdAt : Nat
deriving Repr, DecidableEq

/-- One entry of the compiled-in plan catalog (`shared/schema.ts`). -/
structure PlanInfo where
  name : String
  price : Nat
  messagesPerMonth : Nat
deriving Repr, DecidableEq

/-- `SUBSCRIPTION_PLANS` from `shared/schema.ts`: a JavaScript object with
exactly the keys `trial`, `pro` and `agency`; indexing with any other key
yields `undefined`, modelled as `none`. -/
def SUBSCRIPTION_PLANS : String → Option PlanInfo
  | "trial" => some { name := "Free Trial", price := 0, messagesPerMonth := 2 }
  | "pro" => some { name := "Pro", price := 5, messagesPerMonth := 500 }
  | "agency" => some { name := "Ultimate", price := 20, messagesPerMonth := 5000 }
  | _ => none

/-- The `users` map of `MemStorage`, keyed by numeric id. -/
def UserMap : Type := Nat → Option User

/-- `this.users.set(id, user)`. -/
def setUser (m : UserMap) (i : Nat) (u : User) : UserMap :=
  fun k => if k = i then some u else m k

/-- The empty user map. -/
def emptyMap : UserMap := fun _ => none

/-- The payload of `updateUserSubscription` (storage interface).  An outer
`none` means the key is absent from the payload.  `stripeSubscriptionId`
carries an inner `Option` because the `customer.subscription.deleted`
webhook passes an explicit `null` for it. -/
structure SubscriptionUpdate where
  stripeCustomerId : Option String
  stripeSubscriptionId : Option (Option String)
  plan : Option String
  subscriptionStatus : Option String
  currentPeriodEnd : Option Nat
deriving Repr, DecidableEq

/-- The empty payload: no key present. -/
def SubscriptionUpdate.empty : SubscriptionUpdate :=
  { stripeCustomerId := none, stripeSubscriptionId := none, plan := none,
    subscriptionStatus := none, currentPeriodEnd := none }

/-- The object spread `{ ...user, ...data }` of
`MemStorage.updateUserSubscription`: a field of `user` is overwritten
exactly when the corresponding key is present in the payload. -/
def spreadUpdate (u : User) (d : SubscriptionUpdate) : User :=
  { u with
    stripeCustomerId :=
      match d.stripeCustomerId with
      | none => u.stripeCustomerId
      | some v => some v
    stripeSubscriptionId := d.stripeSubscriptionId.getD u.stripeSubscriptionId
    plan := d.plan.getD u.plan
    subscriptionStatus :=
      match d.subscriptionStatus with
      | none => u.subscriptionStatus
      | some v => some v
    currentPeriodEnd :=
      match d.currentPeriodEnd with
      | none => u.currentPeriodEnd
      | some v => some v }

/-- `MemStorage.updateUserSubscription`: throws (`none`) when the user is
absent, otherwise stores and returns the spread-updated user. -/
def updateUserSubscription (m : UserMap) (userId : Nat) (d : SubscriptionUpdate) :
    Option (UserMap × User) :=
  match m userId with
  | none => none
  | some user =>
    let updatedUser := spreadUpdate user d
    some (setUser m userId updatedUser, updatedUser)

/-- `MemStorage.incrementMessageUsage`: throws (`none`) when the user is
absent, otherwise increments `messagesUsedThisMonth` unconditionally. -/
def incrementMessageUsage (m : UserMap) (userId : Nat) : Option (UserMap × User) :=
  match m userId with
  | none => none
  | some user =>
    let updatedUser := { user with messagesUsedThisMonth := user.messagesUsedThisMonth + 1 }
    some (setUser m userId updatedUser, updatedUser)

/-- `MemStorage.resetMonthlyUsage`: throws (`none`) when the user is absent,
otherwise zeroes `messagesUsedThisMonth`. -/
def resetMonthlyUsage (m : UserMap) (userId : Nat) : Option (UserMap × User) :=
  match m userId with
  | none => none
  | some user =>
    let updatedUser := { user with messagesUsedThisMonth := 0 }
    some (setUser m userId updatedUser, updatedUser)

/-- The guarded `MemStorage.canUserGenerateMessage` (the storage variant with
`if (!userPlan) return false`): unknown user or unknown plan yields `false`,
otherwise compares the counter to the plan quota. -/
def canUserGenerateMessage (m : UserMap) (userId : Nat) : Bool :=
  match m userId with
  | none => false
  | some user =>
    match SUBSCRIPTION_PLANS user.plan with
    | none => false
    | some userPlan => user.messagesUsedThisMonth < userPlan.messagesPerMonth

/-- The unguarded `canUserGenerateMessage` variants (no `if (!userPlan)`
check): when the plan is not a catalog key, `userPlan` is `undefined` and
reading `userPlan.messagesPerMonth` throws a TypeError, modelled as `none`. -/
def canUserGenerateMessageUnguarded (m : UserMap) (userId : Nat) : Option Bool :=
  match m userId with
  | none => some false
  | some user =>
    match SUBSCRIPTION_PLANS user.plan with
    | none => none
    | some userPlan => some (decide (user.messagesUsedThisMonth < userPlan.messagesPerMonth))

/-- `MemStorage.createUser`, first storage variant: the fresh account gets
`plan: "free"` and a zero counter. -/
def createUserFreeVariant (m : UserMap) (nextId : Nat) (username password : String) :
    UserMap × User :=
  let user : User :=
    { id := nextId, username := username, password := password, email := none,
      stripeCustomerId := none, stripeSubscriptionId := none, plan := "free",
      messagesUsedThisMonth := 0, subscriptionStatus := some "active",
      currentPeriodEnd := none, createdAt := 0 }
  (setUser m nextId user, user)

/-- `MemStorage.createUser`, second and third storage variants: the fresh
account gets `plan: "trial"` and a zero counter. -/
def createUserTrialVariant (m : UserMap) (nextId : Nat) (username password : String)
    (email : Option String) : UserMap × User :=
  let user : User :=
    { id := nextId, username := username, password := password, email := email,
      stripeCustomerId := none, stripeSubscriptionId := none, plan := "trial",
      messagesUsedThisMonth := 0, subscriptionStatus := some "active",
      currentPeriodEnd := none, createdAt := 0 }
  (setUser m nextId user, user)

/-- The `invoice.payment_succeeded` webhook case (`server/routes.ts`):
`updateUserSubscription` with the new period end and status `active`,
followed by `resetMonthlyUsage`.  There is no comparison of the incoming
period end against the stored one. -/
def applyInvoicePaid (m : UserMap) (userId : Nat) (periodEnd : Nat) : Option UserMap :=
  match updateUserSubscription m userId
      { SubscriptionUpdate.empty with
        currentPeriodEnd := some periodEnd, subscriptionStatus := some "active" } with
  | none => none
  | some (m1, _) =>
    match resetMonthlyUsage m1 userId with
    | none => none
    | some (m2, _) => some m2

/-- The `customer.subscription.deleted` webhook case (`server/routes.ts`):
`updateUserSubscription` with `plan: "free"`, status `canceled`, and a null
`stripeSubscriptionId`. -/
def applySubscriptionDeleted (m : UserMap) (userId : Nat) : Option UserMap :=
  match updateUserSubscription m userId
      { SubscriptionUpdate.empty with
        plan := some "free", subscriptionStatus := some "canceled",
        stripeSubscriptionId := some none } with
  | none => none
  | some (m1, _) => some m1

/-- Server-visible state touched by a generate-message request: the user map
and the number of stored artifact (message) records.  Message records are
append-only, so only their count matters to the claims. -/
structure ServerState where
  users : UserMap
  artifacts : Nat

/-- The HTTP response of a generate-message route, restricted to the fields
the claims mention. `error` covers every 4xx/5xx thrown path other than the
explicit quota denials. -/
inductive GenResp
  | notFound
  | error
  | limitReached
  | success (messagesUsed : Nat) (messagesRemaining : Int)
deriving Repr, DecidableEq

/-- The authenticated flow of `POST /api/generate-message` in
`server/routes.ts` (first variant).  The entitlement check is commented out
in the source (`PAYWALL TEMPORARILY DISABLED FOR DEBUGGING`), so the flow is:
get user, run the external generation step (`genOk` is its outcome), store
the message record, increment usage unconditionally, and answer with the
updated counter and `quota - counter` computed from the catalog. -/
def generateMessageNoPaywall (st : ServerState) (userId : Nat) (genOk : Bool) :
    ServerState × GenResp :=
  match st.users userId with
  | none => (st, .notFound)
  | some _ =>
    if genOk = false then (st, .error)
    else
      let st1 : ServerState := { st with artifacts := st.artifacts + 1 }
      match incrementMessageUsage st1.users userId with
      | none => (st1, .error)
      | some (m1, updatedUser) =>
        let st2 : ServerState := { users := m1, artifacts := st1.artifacts }
        match SUBSCRIPTION_PLANS updatedUser.plan with
        | none => (st2, .error)
        | some userPlan =>
          (st2, .success updatedUser.messagesUsedThisMonth
            ((userPlan.messagesPerMonth : Int) - (updatedUser.messagesUsedThisMonth : Int)))

/-- The authenticated branch of `POST /api/messages/generate` (the routes
variant with the paywall active): get user, `canUserGenerateMessage`, run
generation, store the message record, `incrementMessageUsage`, answer with
the updated counter. -/
def generateMessageWithCheck (st : ServerState) (userId : Nat) (genOk : Bool) :
    ServerState × GenResp :=
  match st.users userId with
  | none => (st, .notFound)
  | some _ =>
    if canUserGenerateMessage st.users userId = false then (st, .limitReached)
    else if genOk = false then (st, .error)
    else
      let st1 : ServerState := { st with artifacts := st.artifacts + 1 }
      match incrementMessageUsage st1.users userId with
      | none => (st1, .error)
      | some (m1, updatedUser) =>
        let st2 : ServerState := { users := m1, artifacts := st1.artifacts }
        match SUBSCRIPTION_PLANS updatedUser.plan with
        | none => (st2, .error)
        | some userPlan =>
          (st2, .success updatedUser.messagesUsedThisMonth
            ((userPlan.messagesPerMonth : Int) - (updatedUser.messagesUsedThisMonth : Int)))

/-- The anonymous branch of `POST /api/messages/generate` (routes variant
with the session ledger).  State is the session counter
`anonymousMessagesUsed` and the artifact count.  Faithful step order from
the source: the limit check first, then
`req.session.anonymousMessagesUsed = anonymousUsed + 1` BEFORE the external
generation step, then the message record write. -/
def generateMessageAnonymous (anonUsed : Nat) (artifacts : Nat) (genOk : Bool) :
    Nat × Nat × GenResp :=
  if 1 ≤ anonUsed then (anonUsed, artifacts, .limitReached)
  else
    let anonUsed1 := anonUsed + 1
    if genOk = false then (anonUsed1, artifacts, .error)
    else (anonUsed1, artifacts + 1, .success 1 0)

/-! ### Two-step quota consumption under interleaving

One consume attempt in the source is two separate storage calls with an
await point between them: `canUserGenerateMessage` (read the counter,
compare to the quota) and then `incrementMessageUsage` (write counter + 1).
A call is modelled by the phase it has reached; a schedule is the order in
which the pending calls take their next step on the shared counter. -/

/-- The per-call progress of one consume attempt. -/
structure ConsCall where
  checked : Option Bool
  finished : Bool
deriving Repr, DecidableEq

/-- A consume attempt that has not run yet. -/
def ConsCall.start : ConsCall := { checked := none, finished := false }

/-- One atomic step of a consume attempt against the shared counter with
quota `Q`: first the entitlement read (`counter < Q`), then — only if that
read said yes — the blind increment; a denied call finishes without
writing. -/
def consumeStep (Q counter : Nat) (c : ConsCall) : Nat × ConsCall :=
  match c.checked with
  | none => (counter, { c with checked := some (decide (counter < Q)) })
  | some passed =>
    if c.finished then (counter, c)
    else if passed then (counter + 1, { c with finished := true })
    else (counter, { c with finished := true })

/-- Run a schedule (a list of call indices) over the pending calls and the
shared counter. -/
def runSchedule (Q : Nat) : List Nat → Nat → List ConsCall → Nat × List ConsCall
  | [], counter, calls => (counter, calls)
  | t :: rest, counter, calls =>
    match calls.get? t with
    | none => runSchedule Q rest counter calls
    | some c =>
      let s := consumeStep Q counter c
      runSchedule Q rest s.1 (calls.set t s.2)

/-- A consume attempt succeeded when it finished and its entitlement read
had said yes. -/
def ConsCall.succeeded (c : ConsCall) : Bool := c.finished && c.checked == some true

/-- Number of successful attempts in a final call list. -/
def countSuccesses (cs : List ConsCall) : Nat := (cs.filter ConsCall.succeeded).length

/-- Both steps of one consume attempt run back to back (no interleaving). -/
def consumeOnce (Q counter : Nat) : Nat × Bool :=
  let s1 := consumeStep Q counter ConsCall.start
  let s2 := consumeStep Q s1.1 s1.2
  (s2.1, s2.2.succeeded)

/-- `n` consume attempts run serially from the given counter; returns the
final counter and the number of successes. -/
def serialConsume (Q : Nat) : Nat → Nat → Nat × Nat
  | counter, 0 => (counter, 0)
  | counter, n + 1 =>
    let s := consumeOnce Q counter
    let r := serialConsume Q s.1 n
    (r.1, r.2 + (if s.2 then 1 else 0))

/-! ### Hybrid storage failover -/

/-- Which backend served a call. -/
inductive Backend
  | db
  | mem
deriving Repr, DecidableEq

/-- One call through the second `HybridStorage` variant: when the
`useDatabase` flag is set the call goes to the database backend and, if that
call throws (`dbFails`), the catch block clears the flag and re-runs the
call against the in-memory backend; when the flag is clear the call goes
straight to the in-memory backend.  Nothing ever sets the flag back. -/
def hybridCall (useDatabase : Bool) (dbFails : Bool) : Bool × Backend :=
  if useDatabase then
    if dbFails then (false, .mem)
    else (true, .db)
  else (false, .mem)

/-- A sequence of calls through the facade; `fails` lists, per call, whether
the database backend would throw on it. -/
def hybridRun : Bool → List Bool → Bool × List Backend
  | flag, [] => (flag, [])
  | flag, f :: fs =>
    let s := hybridCall flag f
    let r := hybridRun s.1 fs
    (r.1, s.2 :: r.2)

/-- One call through the first `HybridStorage` variant (probe-only: the flag
is decided by the construction-time probe and per-call errors are not
caught). -/
def hybridCallProbeOnly (useDatabase : Bool) : Bool × Backend :=
  if useDatabase then (true, .db) else (false, .mem)

/-- `initializeStorage` of both `HybridStorage` variants: probe the
database backend once; on failure clear the flag. -/
def probeFlag (probeOk : Bool) : Bool := probeOk

/-! ### Concrete fixtures -/

/-- An account on the trial plan that has used exactly its quota. -/
def trialUserAtQuota : User :=
  { id := 1, username := "demo", password := "pw", email := none,
    stripeCustomerId := none, stripeSubscriptionId := none, plan := "trial",
    messagesUsedThisMonth := 2, subscriptionStatus := some "active",
    currentPeriodEnd := none, createdAt := 0 }

/-- A store holding only `trialUserAtQuota` under id 1. -/
def trialStoreAtQuota : UserMap := setUser emptyMap 1 trialUserAtQuota

/-- A pro-plan account mid-period: the `invoice.payment_succeeded` event for
period end 1000 has already been applied once and one message has been
consumed since. -/
def proUserMidPeriod : User :=
  { id := 1, username := "demo", password := "pw", email := none,
    stripeCustomerId := some "cus_1", stripeSubscriptionId := some "sub_1",
    plan := "pro", messagesUsedThisMonth := 1, subscriptionStatus := some "active",
    currentPeriodEnd := some 1000, createdAt := 0 }

/-- A store holding only `proUserMidPeriod` under id 1. -/
def proStoreMidPeriod : UserMap := setUser emptyMap 1 proUserMidPeriod

/-- A pro-plan account with a fresh counter. -/
def proUserFresh : User :=
  { id := 1, username := "demo", password := "pw", email := none,
    stripeCustomerId := some "cus_1", stripeSubscriptionId := some "sub_1",
    plan := "pro", messagesUsedThisMonth := 0, subscriptionStatus := some "active",
    currentPeriodEnd := some 1000, createdAt := 0 }

/-- A store holding only `proUserFresh` under id 1. -/
def proStoreFresh : UserMap := setUser emptyMap 1 proUserFresh

/-- An account carrying the schema default plan identifier `free` (not a
catalog key) with a fresh counter. -/
def freeUserFresh : User :=
  { id := 1, username := "demo", password := "pw", email := none,
    stripeCustomerId := none, stripeSubscriptionId := none, plan := "free",
    messagesUsedThisMonth := 0, subscriptionStatus := some "active",
    currentPeriodEnd := none, createdAt := 0 }

/-- A store holding only `freeUserFresh` under id 1. -/
def freeStoreFresh : UserMap := setUser emptyMap 1 freeUserFresh

/-- A sample `updateUserSubscription` payload naming some fields and
leaving others absent. -/
def sampleUpdate : SubscriptionUpdate :=
  { stripeCustomerId := some "cus_9", stripeSubscriptionId := none,
    plan := some "agency", subscriptionStatus := none, currentPeriodEnd := some 2000 }

/-! ### Helper lemmas about the user map -/

/-- Looking up the key just written returns the written row. -/
theorem setUser_self (m : UserMap) (i : Nat) (u : User) : setUser m i u i = some u := by
  simp [setUser]

/-- Looking up a different key is unaffected by a write. -/
theorem setUser_other (m : UserMap) (i j : Nat) (u : User) (h : j ≠ i) :
    setUser m i u j = m j := by
  simp [setUser, h]

/-- Two writes to the same key collapse to the second. -/
theorem setUser_setUser (m : UserMap) (i : Nat) (a b : User) :
    setUser (setUser m i a) i b = setUser m i b := by
  funext k
  by_cases h : k = i <;> simp [setUser, h]

/-- The row produced by applying `invoice.payment_succeeded` to `u`. -/
def paidUser (u : User) (periodEnd : Nat) : User :=
  { u with
    currentPeriodEnd := some periodEnd
    subscriptionStatus := some "active"
    messagesUsedThisMonth := 0 }

/-- `applyInvoicePaid` on a present user computes to a single overwrite of
that row with `paidUser`. -/
theorem applyInvoicePaid_eq (m : UserMap) (userId periodEnd : Nat) (u : User)
    (hu : m userId = some u) :
    applyInvoicePaid m userId periodEnd = some (setUser m userId (paidUser u periodEnd)) := by
  simp [applyInvoicePaid, updateUserSubscription, resetMonthlyUsage, hu,
    setUser_self, setUser_setUser, spreadUpdate, paidUser, SubscriptionUpdate.empty]

/-- A serial consume attempt is the familiar conditional increment. -/
theorem consumeOnce_eq (Q c : Nat) :
    consumeOnce Q c = if c < Q then (c + 1, true) else (c, false) := by
  by_cases h : c < Q <;>
    simp [consumeOnce, consumeStep, ConsCall.start, ConsCall.succeeded, h]

/-- Running `n` serial consume attempts from counter `c ≤ Q`. -/
theorem serialConsume_shift (Q : Nat) :
    ∀ (n c : Nat), c ≤ Q →
      serialConsume Q c n = (min (c + n) Q, min (c + n) Q - c) := by
  intro n
  induction n with
  | zero =>
    intro c hc
    simp [serialConsume]
    omega
  | succ k ih =>
    intro c hc
    by_cases h : c < Q
    · have hr := ih (c + 1) (by omega)
      simp [serialConsume, consumeOnce_eq, h, hr, Prod.ext_iff]
      omega
    · have hr := ih c hc
      simp [serialConsume, consumeOnce_eq, h, hr, Prod.ext_iff]
      omega

/-! ### Claim theorems -/

/-- Claim C1 (the code contradicts it): in the `server/routes.ts`
generate-message route the entitlement check is commented out, so a request
by a trial-plan account that already used its whole quota of 2 still
completes successfully, reports `messagesRemaining = -1`, and leaves the
counter at 3 > 2. -/
theorem generate_message_completes_above_quota :
    (SUBSCRIPTION_PLANS trialUserAtQuota.plan).map PlanInfo.messagesPerMonth = some 2 ∧
    trialUserAtQuota.messagesUsedThisMonth = 2 ∧
    (generateMessageNoPaywall ⟨trialStoreAtQuota, 0⟩ 1 true).2 = GenResp.success 3 (-1) ∧
    ((generateMessageNoPaywall ⟨trialStoreAtQuota, 0⟩ 1 true).1.users 1).map
      User.messagesUsedThisMonth = some 3 := by
  refine ⟨rfl, rfl, by decide, rfl⟩

/-- Claim C2 counterexample: quota consumption is two separate storage calls,
not one atomic conditional increment.  With quota 1 and two concurrent calls,
the schedule check-A, check-B, increment-A, increment-B lets both calls pass
the entitlement read before either writes: both succeed and the final counter
is 2, not min 2 1 = 1. -/
theorem consume_interleaving_exceeds_quota :
    (runSchedule 1 [0, 1, 0, 1] 0 [ConsCall.start, ConsCall.start]).1 = 2 ∧
    countSuccesses (runSchedule 1 [0, 1, 0, 1] 0 [ConsCall.start, ConsCall.start]).2 = 2 ∧
    min 2 1 = 1 := by
  decide

/-- Claim C2 amended: when the two steps of each consume call run back to
back (no interleaving between the entitlement read and the increment),
exactly min n Q of n calls succeed and the final counter is min n Q. -/
theorem serial_consume_exactly_min (Q n : Nat) :
    serialConsume Q 0 n = (min n Q, min n Q) := by
  have h := serialConsume_shift Q n 0 (Nat.zero_le Q)
  simpa using h

/-- Claim C3: for an account present in storage whose plan is a catalog key,
the entitlement evaluation allows exactly when the counter is strictly below
the plan quota, and the generate route answers with the needs-upgrade denial
exactly when it is not. -/
theorem entitlement_allow_iff_under_quota (m : UserMap) (a userId : Nat) (u : User)
    (p : PlanInfo) (genOk : Bool)
    (hu : m userId = some u) (hp : SUBSCRIPTION_PLANS u.plan = some p) :
    (canUserGenerateMessage m userId = true ↔
      u.messagesUsedThisMonth < p.messagesPerMonth) ∧
    ((generateMessageWithCheck ⟨m, a⟩ userId genOk).2 = GenResp.limitReached ↔
      p.messagesPerMonth ≤ u.messagesUsedThisMonth) := by
  have hc : canUserGenerateMessage m userId =
      decide (u.messagesUsedThisMonth < p.messagesPerMonth) := by
    simp [canUserGenerateMessage, hu, hp]
  constructor
  · rw [hc]
    simp
  · by_cases h : u.messagesUsedThisMonth < p.messagesPerMonth
    · have hcm : canUserGenerateMessage m userId = true := by
        rw [hc]
        simp [h]
      cases genOk
      · simp [generateMessageWithCheck, hu, hcm]
        omega
      · simp [generateMessageWithCheck, hu, hcm, incrementMessageUsage, hp]
        omega
    · have hcm : canUserGenerateMessage m userId = false := by
        rw [hc]
        simp [h]
      simp [generateMessageWithCheck, hu, hcm]
      omega

/-- Claim C3 witness: the trial account at counter 2 of quota 2 is denied
with the needs-upgrade response. -/
theorem entitlement_allow_iff_under_quota_witness :
    trialStoreAtQuota 1 = some trialUserAtQuota ∧
    SUBSCRIPTION_PLANS trialUserAtQuota.plan =
      some { name := "Free Trial", price := 0, messagesPerMonth := 2 } ∧
    ((canUserGenerateMessage trialStoreAtQuota 1 = true ↔
        trialUserAtQuota.messagesUsedThisMonth < 2) ∧
      ((generateMessageWithCheck ⟨trialStoreAtQuota, 0⟩ 1 true).2 = GenResp.limitReached ↔
        2 ≤ trialUserAtQuota.messagesUsedThisMonth)) :=
  ⟨rfl, rfl,
    entitlement_allow_iff_under_quota trialStoreAtQuota 0 1 trialUserAtQuota
      { name := "Free Trial", price := 0, messagesPerMonth := 2 } true rfl rfl⟩

/-- Claim C4 counterexample: the `invoice.payment_succeeded` handler never
compares the incoming period end with the stored one.  On an account whose
stored period end already equals the incoming 1000 and whose counter is 1
(one message consumed since the first application of that very event), a
replay does not no-op: it re-zeroes the counter. -/
theorem invoice_paid_replay_is_not_a_noop :
    proUserMidPeriod.currentPeriodEnd = some 1000 ∧
    proUserMidPeriod.messagesUsedThisMonth = 1 ∧
    ((applyInvoicePaid proStoreMidPeriod 1 1000).bind (fun m => m 1)).map
      User.messagesUsedThisMonth = some 0 := by
  refine ⟨rfl, rfl, rfl⟩

/-- Claim C4 amended: applying the same `InvoicePaid` event twice in direct
succession does yield the same account state as applying it once — not
because of any stored-event comparison, but because each application is a
state-independent overwrite (set the period end, set status active, zero the
counter). -/
theorem applyInvoicePaid_idempotent (m m1 : UserMap) (userId periodEnd : Nat)
    (h : applyInvoicePaid m userId periodEnd = some m1) :
    applyInvoicePaid m1 userId periodEnd = some m1 := by
  cases hu : m userId with
  | none => simp [applyInvoicePaid, updateUserSubscription, hu] at h
  | some u =>
    rw [applyInvoicePaid_eq m userId periodEnd u hu] at h
    have hm1 := Option.some.inj h
    subst hm1
    rw [applyInvoicePaid_eq _ _ _ (paidUser u periodEnd) (setUser_self _ _ _)]
    rw [setUser_setUser]
    rfl

/-- The store after applying `invoice.payment_succeeded` to
`proStoreMidPeriod`. -/
def proStorePaid : UserMap := setUser proStoreMidPeriod 1 (paidUser proUserMidPeriod 1000)

/-- Claim C4 witness: replaying `InvoicePaid` for period end 1000 on the
store it already produced returns that store unchanged. -/
theorem applyInvoicePaid_idempotent_witness :
    applyInvoicePaid proStorePaid 1 1000 = some proStorePaid :=
  applyInvoicePaid_idempotent proStoreMidPeriod proStorePaid 1 1000
    (applyInvoicePaid_eq proStoreMidPeriod 1 1000 proUserMidPeriod rfl)

/-- Claim C5: once the facade routes to the in-memory backend — after a
failed construction probe (flag cleared, first conjunct) or after any
database-backed call throws (second conjunct) — every later call is served
by the in-memory backend and the flag never returns to the database; the
probe-only facade variant likewise serves the in-memory backend whenever its
flag is clear. -/
theorem hybrid_failover_is_one_way (fails : List Bool) :
    hybridRun false fails = (false, fails.map fun _ => Backend.mem) ∧
    hybridRun true (true :: fails) =
      (false, Backend.mem :: fails.map fun _ => Backend.mem) ∧
    hybridCallProbeOnly false = (false, Backend.mem) ∧
    probeFlag false = false := by
  have base : ∀ fs : List Bool,
      hybridRun false fs = (false, fs.map fun _ => Backend.mem) := by
    intro fs
    induction fs with
    | nil => rfl
    | cons f fs ih => simp [hybridRun, hybridCall, ih]
  refine ⟨base fails, ?_, rfl, rfl⟩
  simp [hybridRun, hybridCall, base fails]

/-- Claim C6 (the code contradicts it): the `customer.subscription.deleted`
handler resets the plan to `free`, which is not a catalog key (the keys are
`trial`, `pro`, `agency`).  Afterwards the entitlement check denies even at
counter 0 (guarded variant) or throws (unguarded variant), instead of
falling back to the trial quota: the same account with plan `trial` would be
allowed. -/
theorem subscription_deleted_locks_out_account :
    ((applySubscriptionDeleted proStoreFresh 1).bind (fun m => m 1)).map
      User.plan = some "free" ∧
    ((applySubscriptionDeleted proStoreFresh 1).bind (fun m => m 1)).map
      User.subscriptionStatus = some (some "canceled") ∧
    SUBSCRIPTION_PLANS "free" = none ∧
    ((applySubscriptionDeleted proStoreFresh 1).bind (fun m => m 1)).map
      User.messagesUsedThisMonth = some 0 ∧
    (applySubscriptionDeleted proStoreFresh 1).map
      (fun m => canUserGenerateMessage m 1) = some false ∧
    (applySubscriptionDeleted proStoreFresh 1).map
      (fun m => canUserGenerateMessageUnguarded m 1) = some none ∧
    canUserGenerateMessage (setUser emptyMap 1 { proUserFresh with plan := "trial" }) 1 =
      true := by
  refine ⟨rfl, rfl, rfl, rfl, rfl, rfl, rfl⟩

/-- Claim C7 counterexample: the schema default plan identifier `free` is
not a catalog key; for a fresh account carrying it the guarded entitlement
check denies outright and the unguarded one throws, whereas resolving the
unknown plan to the most restrictive catalog plan (trial, quota 2) would
allow the request at counter 0. -/
theorem unknown_plan_is_not_most_restrictive_plan :
    SUBSCRIPTION_PLANS freeUserFresh.plan = none ∧
    freeUserFresh.messagesUsedThisMonth = 0 ∧
    canUserGenerateMessage freeStoreFresh 1 = false ∧
    canUserGenerateMessageUnguarded freeStoreFresh 1 = none ∧
    (SUBSCRIPTION_PLANS "trial").map PlanInfo.messagesPerMonth = some 2 ∧
    canUserGenerateMessage (setUser emptyMap 1 { freeUserFresh with plan := "trial" }) 1 =
      true := by
  refine ⟨rfl, rfl, rfl, rfl, rfl, rfl⟩

/-- Claim C7 amended: for every stored account whose plan identifier is not
a catalog key, the guarded entitlement check returns false — denying all
generation, stricter than the most restrictive plan and never unlimited —
while the unguarded variant throws instead of deciding. -/
theorem unknown_plan_fails_closed_to_zero (m : UserMap) (userId : Nat) (u : User)
    (hu : m userId = some u) (hp : SUBSCRIPTION_PLANS u.plan = none) :
    canUserGenerateMessage m userId = false ∧
    canUserGenerateMessageUnguarded m userId = none := by
  constructor <;>
    simp [canUserGenerateMessage, canUserGenerateMessageUnguarded, hu, hp]

/-- Claim C7 witness: the fresh account on the schema default plan `free`. -/
theorem unknown_plan_fails_closed_to_zero_witness :
    freeStoreFresh 1 = some freeUserFresh ∧
    SUBSCRIPTION_PLANS freeUserFresh.plan = none ∧
    (canUserGenerateMessage freeStoreFresh 1 = false ∧
      canUserGenerateMessageUnguarded freeStoreFresh 1 = none) :=
  ⟨rfl, rfl, unknown_plan_fails_closed_to_zero freeStoreFresh 1 freeUserFresh rfl rfl⟩

/-- Claim C8 counterexample: the anonymous branch of the generate route
increments the session counter before the external generation step runs.
Starting from a fresh session, a failed generation leaves the counter at 1
with no artifact written: the unit of quota is consumed although generation
never happened, and the increment was applied without the artifact write. -/
theorem anonymous_failed_generation_consumes_quota :
    generateMessageAnonymous 0 0 false = (1, 0, GenResp.error) := by
  decide

/-- Claim C8 amended, authenticated flows: generation runs before any write,
so a failed generation changes neither the counter nor the artifact count
(both route variants), and a successful request in the paywall-disabled
variant applies the artifact write and the counter increment together. -/
theorem authenticated_flows_consume_iff_success (m : UserMap) (a userId : Nat)
    (u : User) (hu : m userId = some u) :
    (generateMessageWithCheck ⟨m, a⟩ userId false).1.artifacts = a ∧
    ((generateMessageWithCheck ⟨m, a⟩ userId false).1.users userId).map
      User.messagesUsedThisMonth = some u.messagesUsedThisMonth ∧
    (generateMessageNoPaywall ⟨m, a⟩ userId false).1.artifacts = a ∧
    ((generateMessageNoPaywall ⟨m, a⟩ userId false).1.users userId).map
      User.messagesUsedThisMonth = some u.messagesUsedThisMonth ∧
    (generateMessageNoPaywall ⟨m, a⟩ userId true).1.artifacts = a + 1 ∧
    ((generateMessageNoPaywall ⟨m, a⟩ userId true).1.users userId).map
      User.messagesUsedThisMonth = some (u.messagesUsedThisMonth + 1) := by
  have hwc : (generateMessageWithCheck ⟨m, a⟩ userId false).1 = ⟨m, a⟩ := by
    cases hcv : canUserGenerateMessage m userId <;>
      simp [generateMessageWithCheck, hu, hcv]
  have hnp : (generateMessageNoPaywall ⟨m, a⟩ userId false).1 = ⟨m, a⟩ := by
    simp [generateMessageNoPaywall, hu]
  refine ⟨by rw [hwc], by rw [hwc]; simp [hu], by rw [hnp], by rw [hnp]; simp [hu], ?_, ?_⟩ <;>
    cases hp : SUBSCRIPTION_PLANS u.plan <;>
      simp [generateMessageNoPaywall, hu, incrementMessageUsage, hp, setUser_self]

/-- Claim C8 witness: the fresh pro-plan account. -/
theorem authenticated_flows_consume_iff_success_witness :
    proStoreFresh 1 = some proUserFresh ∧
    ((generateMessageWithCheck ⟨proStoreFresh, 0⟩ 1 false).1.artifacts = 0 ∧
      ((generateMessageWithCheck ⟨proStoreFresh, 0⟩ 1 false).1.users 1).map
        User.messagesUsedThisMonth = some proUserFresh.messagesUsedThisMonth ∧
      (generateMessageNoPaywall ⟨proStoreFresh, 0⟩ 1 false).1.artifacts = 0 ∧
      ((generateMessageNoPaywall ⟨proStoreFresh, 0⟩ 1 false).1.users 1).map
        User.messagesUsedThisMonth = some proUserFresh.messagesUsedThisMonth ∧
      (generateMessageNoPaywall ⟨proStoreFresh, 0⟩ 1 true).1.artifacts = 0 + 1 ∧
      ((generateMessageNoPaywall ⟨proStoreFresh, 0⟩ 1 true).1.users 1).map
        User.messagesUsedThisMonth = some (proUserFresh.messagesUsedThisMonth + 1)) :=
  ⟨rfl, authenticated_flows_consume_iff_success proStoreFresh 0 1 proUserFresh rfl⟩

/-- Claim C9 counterexample: the first storage variant pairs a `createUser`
that assigns plan `free` with the unguarded entitlement check of that same
variant.  The fresh account (counter 0) is not on the trial plan, and the
entitlement check on it throws a TypeError on the undefined catalog lookup
(`free` is not a catalog key) instead of granting the trial quota. -/
theorem registration_free_variant_entitlement_throws :
    (createUserFreeVariant emptyMap 2 "alice" "pw").2.plan = "free" ∧
    (createUserFreeVariant emptyMap 2 "alice" "pw").2.messagesUsedThisMonth = 0 ∧
    canUserGenerateMessageUnguarded (createUserFreeVariant emptyMap 2 "alice" "pw").1 2 =
      none := by
  refine ⟨rfl, rfl, rfl⟩

/-- Claim C9 amended: every `createUser` variant starts the account counter
at 0 — anonymous session usage is never carried into the account ledger.
In the variants that assign plan `trial` the fresh account passes that
variant's entitlement check, guarded or unguarded, with the full trial
quota; in the first variant, which assigns plan `free`, that variant's own
unguarded entitlement check throws on the catalog lookup instead of
granting the trial quota. -/
theorem registration_starts_fresh_ledger (m : UserMap) (nextId : Nat)
    (uname pw : String) (email : Option String) :
    (createUserTrialVariant m nextId uname pw email).2.plan = "trial" ∧
    (createUserTrialVariant m nextId uname pw email).2.messagesUsedThisMonth = 0 ∧
    canUserGenerateMessage (createUserTrialVariant m nextId uname pw email).1 nextId =
      true ∧
    canUserGenerateMessageUnguarded (createUserTrialVariant m nextId uname pw email).1
      nextId = some true ∧
    (createUserFreeVariant m nextId uname pw).2.messagesUsedThisMonth = 0 ∧
    canUserGenerateMessageUnguarded (createUserFreeVariant m nextId uname pw).1 nextId =
      none := by
  refine ⟨rfl, rfl, ?_, ?_, rfl, ?_⟩ <;>
    simp [canUserGenerateMessage, canUserGenerateMessageUnguarded,
      createUserTrialVariant, createUserFreeVariant, setUser_self, SUBSCRIPTION_PLANS]

/-- Claim C10: `updateUserSubscription` rewrites only the targeted row and
only the payload fields (`plan` follows the payload exactly when present),
leaving the counter, id, username, password, email, creation time and every
other row untouched; `incrementMessageUsage` changes only the targeted
counter. -/
theorem storage_updates_are_frame_local (m m2 m3 : UserMap) (userId j : Nat)
    (d : SubscriptionUpdate) (u u2 u3 : User)
    (hu : m userId = some u) (hj : j ≠ userId)
    (h2 : updateUserSubscription m userId d = some (m2, u2))
    (h3 : incrementMessageUsage m userId = some (m3, u3)) :
    m2 j = m j ∧
    u2.messagesUsedThisMonth = u.messagesUsedThisMonth ∧
    u2.id = u.id ∧ u2.username = u.username ∧ u2.password = u.password ∧
    u2.email = u.email ∧ u2.createdAt = u.createdAt ∧
    u2.plan = d.plan.getD u.plan ∧
    m2 userId = some u2 ∧
    m3 j = m j ∧
    u3.messagesUsedThisMonth = u.messagesUsedThisMonth + 1 ∧
    u3.id = u.id ∧ u3.username = u.username ∧ u3.password = u.password ∧
    u3.email = u.email ∧ u3.plan = u.plan ∧
    u3.subscriptionStatus = u.subscriptionStatus ∧
    u3.stripeCustomerId = u.stripeCustomerId ∧
    u3.stripeSubscriptionId = u.stripeSubscriptionId ∧
    u3.currentPeriodEnd = u.currentPeriodEnd ∧ u3.createdAt = u.createdAt ∧
    m3 userId = some u3 := by
  simp only [updateUserSubscription, hu, Option.some.injEq, Prod.mk.injEq] at h2
  simp only [incrementMessageUsage, hu, Option.some.injEq, Prod.mk.injEq] at h3
  obtain ⟨hm2, hu2⟩ := h2
  obtain ⟨hm3, hu3⟩ := h3
  subst hm2
  subst hu2
  subst hm3
  subst hu3
  simp [spreadUpdate, setUser_self, setUser_other, hj]

/-- Claim C10 witness: a two-field payload applied to the fresh pro account,
checked against the absent row at id 2. -/
theorem storage_updates_are_frame_local_witness :
    proStoreFresh 1 = some proUserFresh ∧
    updateUserSubscription proStoreFresh 1 sampleUpdate =
      some (setUser proStoreFresh 1 (spreadUpdate proUserFresh sampleUpdate),
        spreadUpdate proUserFresh sampleUpdate) ∧
    incrementMessageUsage proStoreFresh 1 =
      some (setUser proStoreFresh 1
          { proUserFresh with
            messagesUsedThisMonth := proUserFresh.messagesUsedThisMonth + 1 },
        { proUserFresh with
          messagesUsedThisMonth := proUserFresh.messagesUsedThisMonth + 1 }) ∧
    ((setUser proStoreFresh 1 (spreadUpdate proUserFresh sampleUpdate)) 2 =
        proStoreFresh 2 ∧
      (spreadUpdate proUserFresh sampleUpdate).messagesUsedThisMonth =
        proUserFresh.messagesUsedThisMonth ∧
      (spreadUpdate proUserFresh sampleUpdate).plan =
        sampleUpdate.plan.getD proUserFresh.plan ∧
      ({ proUserFresh with
          messagesUsedThisMonth :=
            proUserFresh.messagesUsedThisMonth + 1 } : User).plan = proUserFresh.plan) := by
  have h := storage_updates_are_frame_local proStoreFresh
    (setUser proStoreFresh 1 (spreadUpdate proUserFresh sampleUpdate))
    (setUser proStoreFresh 1
      { proUserFresh with
        messagesUsedThisMonth := proUserFresh.messagesUsedThisMonth + 1 })
    1 2 sampleUpdate proUserFresh (spreadUpdate proUserFresh sampleUpdate)
    { proUserFresh with
      messagesUsedThisMonth := proUserFresh.messagesUsedThisMonth + 1 }
    rfl (by decide) rfl rfl
  exact ⟨rfl, rfl, rfl, h.1, h.2.1, h.2.2.2.2.2.2.2.1, h.2.2.2.2.2.2.2.2.2.2.2.2.2.2.2.1⟩

end ColdCopy
